import Mathlib

set_option autoImplicit false

/-
Verification development for the pirate-cove terrain generator
(src/tile.py, src/macro_map.py, src/map_generator.py).

Conventions of the shallow embedding:
* Python floats are modelled as rationals (all constants in the source are
  exact decimal literals, so every arithmetic step of the modelled code is
  exact in the rationals).
* The Mersenne-Twister RNG is abstracted as a stream of rational draws
  (one stream element per call to random(); randint/choice derive an
  integer from one draw).  No theorem depends on the distribution.
* The trigonometric pseudo-noise (numpy sin/cos octaves) enters the chunk
  pipeline only through the two additive noise terms of _generate_tile;
  those two functions are parameters of the generator record, everything
  else is translated literally.
* Python dicts with stable insertion order are modelled as association
  lists; in-place mutation of an entry is modelled by updateTM, which
  rewrites the entry in place and preserves the key order.
-/

/-- Biome enumeration, from tile.py class BiomeType. -/
inductive BiomeType where
  | OCEAN | BEACH | GRASSLAND | FOREST | HILLS | MOUNTAINS
  | SWAMP | DESERT | JUNGLE | TUNDRA | RIVER | LAKE
deriving DecidableEq, Repr

/-- Landform enumeration, from macro_map.py class LandformType. -/
inductive LandformType where
  | OCEAN | ISLAND | ARCHIPELAGO | CONTINENT | ATOLL | PENINSULA
deriving DecidableEq, Repr

/-- Tile value type, from tile.py: Tile = namedtuple("Tile", ["glyph","biome","height","moisture"]). -/
structure Tile where
  glyph : Char
  biome : BiomeType
  height : ℚ
  moisture : ℚ
deriving DecidableEq, Repr

/-- Extended tile record, from tile.py class TileInfo.  The unused
free-form `attributes` dict (never read or written by the generator) is
omitted. -/
structure TileInfo where
  x : ℤ
  y : ℤ
  tile : Tile
  temperature : ℚ := 0.5
  passable : Bool := true
  resource_type : Option String := none
  resource_quantity : ℤ := 0
deriving DecidableEq, Repr

/-- The biomes counted as water, from TileInfo.is_water. -/
def waterBiomes : List BiomeType := [BiomeType.OCEAN, BiomeType.RIVER, BiomeType.LAKE]

/-- TileInfo.is_water: biome is ocean, river or lake. -/
def TileInfo.is_water (t : TileInfo) : Bool :=
  decide (t.tile.biome ∈ waterBiomes)

/-- TileInfo.is_land: not water and height >= 0.0. -/
def TileInfo.is_land (t : TileInfo) : Bool :=
  !t.is_water && decide ((0 : ℚ) ≤ t.tile.height)

/-- TileInfo.can_farm. -/
def TileInfo.can_farm (t : TileInfo) : Bool :=
  t.is_land && decide (t.tile.biome ∈ [BiomeType.GRASSLAND, BiomeType.FOREST, BiomeType.SWAMP])
    && decide (t.tile.moisture > 0.3) && decide (t.tile.height < 0.8)

/-- TileInfo.can_mine. -/
def TileInfo.can_mine (t : TileInfo) : Bool :=
  t.is_land && decide (t.tile.biome ∈ [BiomeType.HILLS, BiomeType.MOUNTAINS])
    && decide (t.tile.height > 0.4)

/-- TileInfo.can_build. -/
def TileInfo.can_build (t : TileInfo) : Bool :=
  t.is_land && t.passable && decide (t.tile.biome ∉ [BiomeType.SWAMP])
    && decide (t.tile.height < 0.7)

/-- TileInfo.get_fertility. -/
def TileInfo.get_fertility (t : TileInfo) : ℚ :=
  if !t.can_farm then 0
  else
    let base : ℚ :=
      match t.tile.biome with
      | BiomeType.GRASSLAND => 0.8
      | BiomeType.FOREST => 0.6
      | BiomeType.SWAMP => 1.0
      | _ => 0.0
    base * min 1.0 (t.tile.moisture * 1.5) * max 0.0 (1.0 - t.tile.height * 2)

/-- TileInfo.get_mining_richness. -/
def TileInfo.get_mining_richness (t : TileInfo) : ℚ :=
  if !t.can_mine then 0
  else
    let base : ℚ :=
      match t.tile.biome with
      | BiomeType.HILLS => 0.6
      | BiomeType.MOUNTAINS => 1.0
      | _ => 0.0
    base * min 2.0 (t.tile.height * 2)

/-- TileInfo.set_resource. -/
def TileInfo.set_resource (t : TileInfo) (rt : String) (q : ℤ) : TileInfo :=
  { t with resource_type := some rt, resource_quantity := q }

/-- Python truthiness of the optional resource-type string:
None and the empty string are falsy. -/
def pyTruthy : Option String → Bool
  | none => false
  | some s => decide (s ≠ "")

/-- TileInfo.harvest_resource: returns (actual amount harvested, updated tile). -/
def TileInfo.harvest_resource (t : TileInfo) (amount : ℤ) : ℤ × TileInfo :=
  if !pyTruthy t.resource_type || t.resource_quantity ≤ 0 then (0, t)
  else
    let harvested := min amount t.resource_quantity
    let q' := t.resource_quantity - harvested
    if q' ≤ 0 then
      (harvested, { t with resource_type := none, resource_quantity := 0 })
    else
      (harvested, { t with resource_quantity := q' })

/-- Default glyph per biome, from tile.py get_default_glyph_for_biome
(the dict covers every biome, so the .get default '.' is unreachable). -/
def get_default_glyph_for_biome : BiomeType → Char
  | BiomeType.OCEAN => '~'
  | BiomeType.BEACH => '.'
  | BiomeType.GRASSLAND => '.'
  | BiomeType.FOREST => '♠'
  | BiomeType.HILLS => '^'
  | BiomeType.MOUNTAINS => '▲'
  | BiomeType.SWAMP => '≈'
  | BiomeType.DESERT => '~'
  | BiomeType.JUNGLE => '♠'
  | BiomeType.TUNDRA => '.'
  | BiomeType.RIVER => '~'
  | BiomeType.LAKE => '~'

/-- The biome classifier, translated branch by branch from
tile.py determine_biome (the redundant cold-band split on moisture is kept
as in the source). -/
def determine_biome (height moisture temperature : ℚ) : BiomeType :=
  if height < 0.0 then BiomeType.OCEAN
  else if height < 0.1 then BiomeType.BEACH
  else if temperature < 0.2 then
    (if moisture > 0.7 then BiomeType.TUNDRA else BiomeType.TUNDRA)
  else if temperature < 0.4 then
    (if moisture > 0.6 then BiomeType.FOREST
     else if moisture > 0.3 then BiomeType.GRASSLAND
     else BiomeType.HILLS)
  else if temperature < 0.7 then
    (if height > 0.7 then BiomeType.MOUNTAINS
     else if height > 0.5 then BiomeType.HILLS
     else if moisture > 0.7 then BiomeType.FOREST
     else if moisture > 0.6 then BiomeType.SWAMP
     else if moisture > 0.3 then BiomeType.GRASSLAND
     else BiomeType.DESERT)
  else
    (if height > 0.6 then BiomeType.MOUNTAINS
     else if moisture > 0.8 then BiomeType.JUNGLE
     else if moisture > 0.6 then BiomeType.SWAMP
     else if moisture > 0.2 then BiomeType.GRASSLAND
     else BiomeType.DESERT)

/-- Coarse world-grid cell, from macro_map.py dataclass MacroCell.
Only the fields the chunk generator and the modelled phases read are kept
(coordinates, climate, settlement and river-source fields are never read
by the code under verification). -/
structure CoarseCell where
  elevation : ℚ := 0.0
  moisture : ℚ := 0.5
  temperature : ℚ := 0.5
  has_river : Bool := false
  river_entry_sides : List String := []
deriving DecidableEq, Repr

/-- The synthesized deep-ocean cell used for coordinates outside the grid:
MacroCell(x=.., y=.., elevation=-0.5) with all other fields at their
dataclass defaults. -/
def defaultOceanCell : CoarseCell := { elevation := -0.5 }

/-- Seed resolution in MacroWorldMap.__init__:
`self.seed = seed or random.randint(0, 2**32 - 1)`.
`entropy` stands for the eventual random draw; Python's `or` uses it both
when the argument is None and when it is the (falsy) integer 0. -/
def effectiveSeed (seed : Option ℤ) (entropy : ℤ) : ℤ :=
  match seed with
  | none => entropy
  | some s => if s = 0 then entropy else s

/-- Python `range(n)` as a list of integers (empty for n <= 0). -/
def pyRange (n : ℤ) : List ℤ :=
  (List.range n.toNat).map Int.ofNat

/-- The set of keys the elevation pass of MacroWorldMap._generate_world
populates: `for y in range(height): for x in range(width): cells[(x,y)]`. -/
def macroGridKeys (width height : ℤ) : List (ℤ × ℤ) :=
  (pyRange height).flatMap fun y => (pyRange width).map fun x => (x, y)

/-- Membership test mirroring `(check_x, check_y) in self.cells`: the
elevation pass populates exactly the rectangle [0,w) x [0,h). -/
def inGridQ (w h : ℤ) (x y : ℤ) : Bool :=
  decide (0 ≤ x) && decide (x < w) && decide (0 ≤ y) && decide (y < h)

/-- One ring of MacroWorldMap._get_ocean_proximity: scan all offsets with
|dx| + |dy| = d and report whether some in-grid cell at that Manhattan
distance has elevation below sea level (0.0). -/
def ringHasOcean (w h : ℤ) (elev : ℤ → ℤ → ℚ) (x y : ℤ) (d : ℕ) : Bool :=
  (List.range (2 * d + 1)).any fun i =>
    (List.range (2 * d + 1)).any fun j =>
      let dx : ℤ := (i : ℤ) - d
      let dy : ℤ := (j : ℤ) - d
      decide (dx.natAbs + dy.natAbs = d) && inGridQ w h (x + dx) (y + dy)
        && decide (elev (x + dx) (y + dy) < 0)

/-- MacroWorldMap._get_ocean_proximity: the distance loop
`for distance in range(1, max_check_distance + 1)` with
max_check_distance = 5, unrolled; returns 1 - d/5 for the first ring that
contains ocean, else 0.0. -/
def oceanProximity (w h : ℤ) (elev : ℤ → ℤ → ℚ) (x y : ℤ) : ℚ :=
  if ringHasOcean w h elev x y 1 then 1 - 1 / 5
  else if ringHasOcean w h elev x y 2 then 1 - 2 / 5
  else if ringHasOcean w h elev x y 3 then 1 - 3 / 5
  else if ringHasOcean w h elev x y 4 then 1 - 4 / 5
  else if ringHasOcean w h elev x y 5 then 1 - 5 / 5
  else 0

/-- MacroWorldMap._generate_moisture for the cell at (x, y).
`elev` is the elevation grid produced by the earlier phases and `draws`
is the stream of rng.random() values this phase consumes, one per cell in
scan order (index y*w + x). -/
def moistureAt (w h : ℤ) (elev : ℤ → ℤ → ℚ) (draws : ℕ → ℚ) (x y : ℤ) : ℚ :=
  let base : ℚ := 0.5 + (draws (y * w + x).toNat - 0.5) * 0.4
  let prox := oceanProximity w h elev x y
  let bonus := prox * 0.3
  let factor : ℚ := max 0 (1.0 - elev x y)
  max 0.0 (min 1.0 (base + bonus * factor))

/-- Modelled from the claim (C3): the spec's moisture formula
clamp(base + ocean_proximity * 0.3 * (1 - max(0, elevation)), 0, 1),
written for comparison against the code's moistureAt. -/
def claimMoistureFormula (base prox elev : ℚ) : ℚ :=
  max 0.0 (min 1.0 (base + prox * 0.3 * (1 - max 0 elev)))

/-- MacroWorldMap._classify_landforms for one cell, given its elevation and
the elevations of its (up to 8) existing neighbors; sea_level = 0.0. -/
def classifyLandform (elev : ℚ) (neighborElevs : List ℚ) : LandformType :=
  if elev < 0.0 then LandformType.OCEAN
  else
    let landN := (neighborElevs.filter fun e => decide (0.0 ≤ e)).length
    let waterN := neighborElevs.length - landN
    if landN = 0 then LandformType.ATOLL
    else if waterN ≥ 6 then LandformType.ISLAND
    else if waterN ≥ 3 then LandformType.ARCHIPELAGO
    else if waterN ≥ 1 then LandformType.PENINSULA
    else LandformType.CONTINENT

/-- Abstracted random.Random stream: `vals` is the sequence of draws,
`idx` the number of draws already consumed. -/
structure RNG where
  vals : ℕ → ℚ
  idx : ℕ

/-- One rng.random() call. -/
def RNG.next (r : RNG) : ℚ × RNG :=
  (r.vals r.idx, { r with idx := r.idx + 1 })

/-- rng.randint(a, b) (inclusive bounds), derived from one draw. -/
def RNG.randint (r : RNG) (a b : ℤ) : ℤ × RNG :=
  let p := r.next
  (a + ⌊p.1 * ((b : ℚ) - (a : ℚ) + 1)⌋, p.2)

/-- rng.choice(seq) for a list of strings, derived from one draw. -/
def RNG.choice (r : RNG) (l : List String) : String × RNG :=
  let p := r.next
  (l.getD (⌊p.1 * (l.length : ℚ)⌋.toNat) "", p.2)

/-- Chunk coordinates, from map_generator.py dataclass ChunkCoords
(mx/my are the source's macro_x/macro_y, cx/cy its chunk_x/chunk_y). -/
structure ChunkCoords where
  mx : ℤ
  my : ℤ
  cx : ℤ := 0
  cy : ℤ := 0
deriving DecidableEq, Repr

/-- A chunk: the tiles dict, as an insertion-ordered association list
from local (x, y) to TileInfo. -/
abbrev TileMap := List ((ℤ × ℤ) × TileInfo)

/-- First-match lookup in a chunk (dict access tiles[(x,y)] / tiles.get). -/
def lookupTM : TileMap → ℤ × ℤ → Option TileInfo
  | [], _ => none
  | e :: es, p => if e.1 = p then some e.2 else lookupTM es p

/-- In-place mutation of the entry at key p (Python mutates the TileInfo
object held by the dict; the key set and order are unchanged). -/
def updateTM (t : TileMap) (p : ℤ × ℤ) (ti : TileInfo) : TileMap :=
  t.map fun e => if e.1 = p then (p, ti) else e

/-- The key list of a chunk, in insertion order. -/
def keysOf (t : TileMap) : List (ℤ × ℤ) :=
  t.map Prod.fst

/-- Generator-level parameters of MapGenerator.  worldSeed is
self.macro_map.seed; elevNoise and moistNoise abstract the trigonometric
_generate_elevation_noise and _generate_moisture_noise as functions of the
world coordinates; rngOf abstracts `random.Random(chunk_seed)` as a draw
stream per seed.  (The elevation/moisture octave scale constants live
inside the two noise functions; np.random.seed(chunk_seed % 2**32) touches
only numpy's global state, which the generator never reads.) -/
structure GenParams where
  worldSeed : ℤ
  chunk_size : ℕ := 32
  elevNoise : ℤ → ℤ → ℚ
  moistNoise : ℤ → ℤ → ℚ
  rngOf : ℤ → ℕ → ℚ

/-- The macro grid as the chunk generator consumes it:
get_cell(x, y) returning a cell or absence. -/
abbrev WorldGrid := ℤ → ℤ → Option CoarseCell

/-- The 8 neighbor cells, from MapGenerator._get_macro_neighbors (missing
neighbors are replaced by the default deep-ocean cell, so every direction
is always present). -/
structure NeighborCells where
  north : CoarseCell
  south : CoarseCell
  east : CoarseCell
  west : CoarseCell
  northeast : CoarseCell
  northwest : CoarseCell
  southeast : CoarseCell
  southwest : CoarseCell
deriving DecidableEq, Repr

/-- MapGenerator._get_macro_neighbors. -/
def getNeighborCells (world : WorldGrid) (mx my : ℤ) : NeighborCells :=
  let get := fun (dx dy : ℤ) => (world (mx + dx) (my + dy)).getD defaultOceanCell
  { north := get 0 (-1), south := get 0 1, east := get 1 0, west := get (-1) 0,
    northeast := get 1 (-1), northwest := get (-1) (-1),
    southeast := get 1 1, southwest := get (-1) 1 }

/-- MapGenerator._blend_property: the 8-way if/elif chain on the blend
factors.  The inner `if direction in neighbors` tests of the source are
always true because _get_macro_neighbors fills every direction. -/
def blendProperty (center : CoarseCell) (nbrs : NeighborCells)
    (bx byv : ℚ) (f : CoarseCell → ℚ) : ℚ :=
  if bx < 0.1 ∧ byv < 0.1 then (f center + f nbrs.northwest) * 0.5
  else if bx > 0.9 ∧ byv < 0.1 then (f center + f nbrs.northeast) * 0.5
  else if bx < 0.1 ∧ byv > 0.9 then (f center + f nbrs.southwest) * 0.5
  else if bx > 0.9 ∧ byv > 0.9 then (f center + f nbrs.southeast) * 0.5
  else if bx < 0.1 then (f center + f nbrs.west) * 0.5
  else if bx > 0.9 then (f center + f nbrs.east) * 0.5
  else if byv < 0.1 then (f center + f nbrs.north) * 0.5
  else if byv > 0.9 then (f center + f nbrs.south) * 0.5
  else f center

/-- MapGenerator._generate_tile (its rng argument is never used by the
source body).  Blend height/moisture/temperature, add noise, clamp,
classify, build the TileInfo. -/
def generateTile (P : GenParams) (c : ChunkCoords) (lx ly : ℕ)
    (cell : CoarseCell) (nbrs : NeighborCells) : TileInfo :=
  let cs : ℤ := (P.chunk_size : ℤ)
  let wx : ℤ := c.mx * cs + (lx : ℤ)
  let wy : ℤ := c.my * cs + (ly : ℤ)
  let bx : ℚ := (lx : ℚ) / (P.chunk_size : ℚ)
  let byv : ℚ := (ly : ℚ) / (P.chunk_size : ℚ)
  let h0 := blendProperty cell nbrs bx byv CoarseCell.elevation
  let m0 := blendProperty cell nbrs bx byv CoarseCell.moisture
  let t0 := blendProperty cell nbrs bx byv CoarseCell.temperature
  let h1 := h0 + P.elevNoise wx wy
  let m1 := m0 + P.moistNoise wx wy * 0.2
  let h := max (-1.0) (min 1.0 h1)
  let m := max 0.0 (min 1.0 m1)
  let tv := max 0.0 (min 1.0 t0)
  let biome := determine_biome h m tv
  { x := wx, y := wy,
    tile := { glyph := get_default_glyph_for_biome biome, biome := biome,
              height := h, moisture := m },
    temperature := tv,
    passable := !decide (biome ∈ waterBiomes),
    resource_type := none, resource_quantity := 0 }

/-- The tile-creation double loop of generate_chunk:
`for local_y in range(chunk_size): for local_x in range(chunk_size)`. -/
def buildTiles (P : GenParams) (c : ChunkCoords)
    (cell : CoarseCell) (nbrs : NeighborCells) : TileMap :=
  (List.range P.chunk_size).flatMap fun (ly : ℕ) =>
    (List.range P.chunk_size).map fun (lx : ℕ) =>
      (((lx : ℤ), (ly : ℤ)), generateTile P c lx ly cell nbrs)

/-- Water-neighbor count of MapGenerator._apply_erosion: the 8 immediate
neighbors present in the dict whose biome is water-class. -/
def countWaterNbrs (t : TileMap) (p : ℤ × ℤ) : ℕ :=
  ((List.range 3).flatMap fun i =>
    (List.range 3).flatMap fun j =>
      let dx : ℤ := (i : ℤ) - 1
      let dy : ℤ := (j : ℤ) - 1
      if dx = 0 ∧ dy = 0 then []
      else
        match lookupTM t (p.1 + dx, p.2 + dy) with
        | some ti => if ti.is_water then [()] else []
        | none => []).length

/-- The per-tile body of MapGenerator._apply_erosion. -/
def erodeAt (t : TileMap) (p : ℤ × ℤ) : TileMap :=
  match lookupTM t p with
  | none => t
  | some ti =>
    if ti.is_water then t
    else
      let wn := countWaterNbrs t p
      if 0 < wn then
        let ef : ℚ := (wn : ℚ) / 8.0 * 0.05
        let nh := max (-1.0) (ti.tile.height - ef)
        let nm := min 1.0 (ti.tile.moisture + ef * 0.5)
        updateTM t p { ti with tile := { ti.tile with height := nh, moisture := nm } }
      else t

/-- MapGenerator._apply_erosion: iterate over the tiles in dict order,
mutating in place (biome is never written, so the water tests the later
iterations perform are unaffected by the earlier mutations, exactly as in
the source). -/
def applyErosion (t : TileMap) : TileMap :=
  (keysOf t).foldl erodeAt t

/-- A tile converted to river, from _trace_chunk_river:
glyph '~', biome RIVER, height capped at 0.05, moisture 1.0. -/
def riverTileOf (old : Tile) : Tile :=
  { glyph := '~', biome := BiomeType.RIVER,
    height := min old.height 0.05, moisture := 1.0 }

/-- The 8 neighbor offsets in the iteration order of the source loops
(dx outer over [-1,0,1], dy inner, skipping (0,0); the candidate loop's
`[-1,1] if dx == 0 else [-1,0,1]` produces the same sequence). -/
def offs8 : List (ℤ × ℤ) :=
  [(-1, -1), (-1, 0), (-1, 1), (0, -1), (0, 1), (1, -1), (1, 0), (1, 1)]

/-- One neighbor of the river-widening loop: the rng draw happens only if
the neighbor key exists (Python's short-circuit `in tiles and
rng.random() < 0.5`), and only non-RIVER tiles are converted. -/
def widenAt (pos : ℤ × ℤ) (s : TileMap × RNG) (off : ℤ × ℤ) : TileMap × RNG :=
  let np := (pos.1 + off.1, pos.2 + off.2)
  match lookupTM s.1 np with
  | none => s
  | some nti =>
    let p := s.2.next
    if p.1 < 0.5 then
      if nti.tile.biome ≠ BiomeType.RIVER then
        (updateTM s.1 np { nti with tile := riverTileOf nti.tile, passable := false }, p.2)
      else (s.1, p.2)
    else (s.1, p.2)

/-- First position of minimal height among candidates (Python min with a
key keeps the first minimum). -/
def minPosByHeight (t : TileMap) : List (ℤ × ℤ) → Option (ℤ × ℤ)
  | [] => none
  | p :: ps =>
    some (ps.foldl (fun (b q : ℤ × ℤ) =>
      let hb : ℚ := ((lookupTM t b).map fun ti => ti.tile.height).getD 0
      let hq : ℚ := ((lookupTM t q).map fun ti => ti.tile.height).getD 0
      if hq < hb then q else b) p)

/-- One iteration body of the `for _ in range(100)` walk of
_trace_chunk_river (after the revisit/missing-key test): convert the
current tile to river; with one draw below 0.3 run the widening loop;
collect unvisited neighbor keys whose height (read from the
possibly-widened map) is at most the height of the just-written river
tile; return the new state and the first lowest candidate, if any. -/
def traceStep (t : TileMap) (pos : ℤ × ℤ) (visited' : List (ℤ × ℤ))
    (ti : TileInfo) (rng : RNG) : (TileMap × RNG) × Option (ℤ × ℤ) :=
  let rt := riverTileOf ti.tile
  let t1 := updateTM t pos { ti with tile := rt, passable := false }
  let p := rng.next
  let s2 := if p.1 < 0.3 then offs8.foldl (widenAt pos) (t1, p.2) else (t1, p.2)
  let cands := offs8.filterMap fun off =>
    let np := (pos.1 + off.1, pos.2 + off.2)
    match lookupTM s2.1 np with
    | some nti =>
      if np ∉ visited' ∧ nti.tile.height ≤ rt.height then some np else none
    | none => none
  (s2, minPosByHeight s2.1 cands)

/-- The walk of _trace_chunk_river, with the remaining iteration count of
`for _ in range(100)` as fuel: stop on a revisit or a missing key, run the
iteration body, move to its chosen next position. -/
def traceGo : ℕ → TileMap → ℤ × ℤ → List (ℤ × ℤ) → RNG → TileMap × RNG
  | 0, t, _, _, rng => (t, rng)
  | n + 1, t, pos, visited, rng =>
    if pos ∈ visited then (t, rng)
    else
      match lookupTM t pos with
      | none => (t, rng)
      | some ti =>
        let r := traceStep t pos (pos :: visited) ti rng
        match r.2 with
        | none => r.1
        | some np => traceGo n r.1.1 np (pos :: visited) r.1.2

/-- MapGenerator._trace_chunk_river. -/
def traceChunkRiver (t : TileMap) (start : ℤ × ℤ) (rng : RNG) : TileMap × RNG :=
  traceGo 100 t start [] rng

/-- The fallback start of _generate_rivers when no entry side is recorded:
the first highest entry among the land tiles of height above 0.3. -/
def riverStartKey (t : TileMap) : Option (ℤ × ℤ) :=
  match t.filter (fun q => decide (q.2.tile.height > 0.3) && q.2.is_land) with
  | [] => none
  | e :: es =>
    some ((es.foldl (fun b q => if q.2.tile.height > b.2.tile.height then q else b) e).1)

/-- MapGenerator._generate_rivers: pick the entry point from the recorded
entry side (checked in the order north, south, west, east) or from the
highest high-land tile, then trace. -/
def generateRivers (t : TileMap) (cs : ℕ) (cell : CoarseCell) (rng : RNG) :
    TileMap × RNG :=
  if !cell.has_river then (t, rng)
  else
    let half : ℤ := (cs : ℤ) / 2
    let sides := cell.river_entry_sides
    let se : Option (ℤ × ℤ) × RNG :=
      if "north" ∈ sides then
        let p := rng.randint (-5) 5; (some (half + p.1, 0), p.2)
      else if "south" ∈ sides then
        let p := rng.randint (-5) 5; (some (half + p.1, (cs : ℤ) - 1), p.2)
      else if "west" ∈ sides then
        let p := rng.randint (-5) 5; (some (0, half + p.1), p.2)
      else if "east" ∈ sides then
        let p := rng.randint (-5) 5; (some ((cs : ℤ) - 1, half + p.1), p.2)
      else (none, rng)
    let start : Option (ℤ × ℤ) :=
      match se.1 with
      | some s => some s
      | none => riverStartKey t
    match start with
    | some s => traceChunkRiver t s se.2
    | none => (t, se.2)

/-- The per-tile body of MapGenerator._place_resources, threading the
chunk rng through the eligibility rolls. -/
def resourceAt (s : TileMap × RNG) (p : ℤ × ℤ) : TileMap × RNG :=
  match lookupTM s.1 p with
  | none => s
  | some ti =>
    if !ti.is_land then s
    else
      let w : TileInfo := { x := ti.x, y := ti.y, tile := ti.tile }
      if w.can_mine then
        let rich := w.get_mining_richness
        let d1 := s.2.next
        if d1.1 < 0.1 * rich then
          let cr : List String × RNG :=
            if ti.tile.biome = BiomeType.MOUNTAINS then
              let d2 := d1.2.next
              (if d2.1 < 0.05 then
                ["iron_ore", "copper_ore", "silver_ore", "gold_ore"]
               else ["iron_ore", "copper_ore", "silver_ore"], d2.2)
            else (["stone", "clay", "iron_ore"], d1.2)
          let ch := cr.2.choice cr.1
          let bq := ch.2.randint 50 200
          let q : ℤ := ⌊(bq.1 : ℚ) * rich⌋
          (updateTM s.1 p (ti.set_resource ch.1 q), bq.2)
        else (s.1, d1.2)
      else if ti.tile.biome = BiomeType.FOREST then
        let d1 := s.2.next
        if d1.1 < 0.2 then
          let bq := d1.2.randint 20 80
          (updateTM s.1 p (ti.set_resource "wood" bq.1), bq.2)
        else (s.1, d1.2)
      else if ti.tile.biome = BiomeType.BEACH then
        let d1 := s.2.next
        if d1.1 < 0.05 then
          let bq := d1.2.randint 10 40
          (updateTM s.1 p (ti.set_resource "salt" bq.1), bq.2)
        else (s.1, d1.2)
      else s

/-- MapGenerator._place_resources over the tiles in dict order. -/
def placeResources (t : TileMap) (rng : RNG) : TileMap × RNG :=
  (keysOf t).foldl resourceAt (t, rng)

/-- The per-chunk seed of generate_chunk. -/
def chunkSeed (P : GenParams) (c : ChunkCoords) (seedOffset : ℤ) : ℤ :=
  P.worldSeed + c.mx * 1000 + c.my * 1000000 + c.cx * 17 + c.cy * 23 + seedOffset

/-- The cache-miss body of MapGenerator.generate_chunk: resolve the macro
cell (deep-ocean default if absent), resolve neighbors, build the rng from
the chunk seed, create the tiles, erode, trace rivers when the macro cell
is river-bearing, place resources. -/
def computeChunkTiles (P : GenParams) (world : WorldGrid) (c : ChunkCoords)
    (seedOffset : ℤ) : TileMap :=
  let cell := (world c.mx c.my).getD defaultOceanCell
  let nbrs := getNeighborCells world c.mx c.my
  let rng : RNG := { vals := P.rngOf (chunkSeed P c seedOffset), idx := 0 }
  let t0 := buildTiles P c cell nbrs
  let t1 := applyErosion t0
  let s2 := if cell.has_river then generateRivers t1 P.chunk_size cell rng else (t1, rng)
  (placeResources s2.1 s2.2).1

/-- The chunk cache: chunk key (macro_x, macro_y, chunk_x, chunk_y) to
generated chunk. -/
abbrev ChunkKey := ℤ × ℤ × ℤ × ℤ

/-- Generator cache state (self.chunks). -/
abbrev GenState := List (ChunkKey × TileMap)

/-- Cache lookup (chunk_key in self.chunks / self.chunks.get). -/
def lookupKey : GenState → ChunkKey → Option TileMap
  | [], _ => none
  | e :: es, k => if e.1 = k then some e.2 else lookupKey es k

/-- MapGenerator.generate_chunk: return the cached chunk on a hit,
otherwise compute, store and return. -/
def generate_chunk (P : GenParams) (world : WorldGrid) (st : GenState)
    (c : ChunkCoords) (seedOffset : ℤ) : TileMap × GenState :=
  let key : ChunkKey := (c.mx, c.my, c.cx, c.cy)
  match lookupKey st key with
  | some t => (t, st)
  | none =>
    let t := computeChunkTiles P world c seedOffset
    (t, (key, t) :: st)

/-- MapGenerator.get_tile: floor-divide/mod the world coordinates by
chunk_size (Python // and % are floor division and floor modulo, i.e.
Int.fdiv / Int.fmod), fetch or generate the owning chunk, and look the
local key up.  `if not chunk` is true for a missing and for an empty
chunk, as in the source. -/
def get_tile (P : GenParams) (world : WorldGrid) (st : GenState)
    (wx wy : ℤ) : Option TileInfo × GenState :=
  let cs : ℤ := (P.chunk_size : ℤ)
  let mx := Int.fdiv wx cs
  let my := Int.fdiv wy cs
  let lx := Int.fmod wx cs
  let ly := Int.fmod wy cs
  let c : ChunkCoords := { mx := mx, my := my, cx := 0, cy := 0 }
  match lookupKey st (mx, my, 0, 0) with
  | some t =>
    if t.isEmpty then
      let r := generate_chunk P world st c 0
      (lookupTM r.1 (lx, ly), r.2)
    else (lookupTM t (lx, ly), st)
  | none =>
    let r := generate_chunk P world st c 0
    (lookupTM r.1 (lx, ly), r.2)

/-- The key set every generated chunk has: local coordinates
[0, chunk_size) x [0, chunk_size) in creation order. -/
def standardKeys (cs : ℕ) : List (ℤ × ℤ) :=
  (List.range cs).flatMap fun (ly : ℕ) =>
    (List.range cs).map fun (lx : ℕ) => (((lx : ℤ), (ly : ℤ)))

/-- A generator state is good when every cached chunk has the standard
key set (which holds for every chunk the generator itself produced). -/
def GoodState (P : GenParams) (st : GenState) : Prop :=
  ∀ k t, lookupKey st k = some t → keysOf t = standardKeys P.chunk_size

/-- Concrete generator parameters for the worked examples: chunk_size 2,
both noise terms identically 0 (well inside the +-0.15 and +-0.5 ranges
the trigonometric noise can produce) and a constant rng stream. -/
def PexA : GenParams :=
  { worldSeed := 1, chunk_size := 2,
    elevNoise := fun _ _ => 0, moistNoise := fun _ _ => 0,
    rngOf := fun _ _ => 0.5 }

/-- A single low-lying beach-level macro cell. -/
def cellEx : CoarseCell := { elevation := 0.005, moisture := 0.5, temperature := 0.5 }

/-- A 1x1 macro world holding only cellEx; every neighbor of (0,0) is out
of bounds and resolves to the deep-ocean default. -/
def worldEx : WorldGrid := fun x y => if x = 0 ∧ y = 0 then some cellEx else none

/-- The chunk generated for the macro cell of worldEx. -/
def chunkEx : TileMap := computeChunkTiles PexA worldEx { mx := 0, my := 0 } 0

/-- A flat beach-level macro cell, river-bearing at the grid center. -/
def cell3 (riv : Bool) : CoarseCell :=
  { elevation := 0.05, moisture := 0.5, temperature := 0.5, has_river := riv }

/-- A 3x3 macro world, uniformly at elevation 0.05, whose center cell is
river-bearing with no recorded entry side. -/
def world3 : WorldGrid := fun x y =>
  if 0 ≤ x ∧ x < 3 ∧ 0 ≤ y ∧ y < 3 then some (cell3 (x = 1 ∧ y = 1)) else none

/-- The chunk generated for the river-bearing center cell of world3. -/
def chunk3 : TileMap := computeChunkTiles PexA world3 { mx := 1, my := 1 } 0

/-- An all-ocean 2x1 elevation field for the moisture example. -/
def elevC3 : ℤ → ℤ → ℚ := fun _ _ => -0.5

/-- Moisture-phase rng draws fixed at 0.5 (so base = 0.5). -/
def drawsC3 : ℕ → ℚ := fun _ => 0.5

/-- A single high grassland tile (for the micro-river witness). -/
def tiLand : TileInfo :=
  { x := 0, y := 0,
    tile := { glyph := '.', biome := BiomeType.GRASSLAND, height := 0.5, moisture := 0.5 } }

/-- One-tile chunk holding tiLand. -/
def tW : TileMap := [((0, 0), tiLand)]

/-- A river-bearing macro cell with no recorded entry side. -/
def cellW : CoarseCell := { elevation := 0.5, has_river := true }

/-- A constant rng stream. -/
def rngW : RNG := { vals := fun _ => 0.5, idx := 0 }

/-- An ocean tile at (0,0) (for the erosion example). -/
def tiOcean : TileInfo :=
  { x := 0, y := 0,
    tile := { glyph := '~', biome := BiomeType.OCEAN, height := -0.3, moisture := 0.5 },
    passable := false }

/-- A barely-above-sea-level beach tile at (1,0). -/
def tiBeach : TileInfo :=
  { x := 1, y := 0,
    tile := { glyph := '.', biome := BiomeType.BEACH, height := 0.005, moisture := 0.5 } }

/-- A two-tile map: ocean next to a low beach tile. -/
def T10 : TileMap := [((0, 0), tiOcean), ((1, 0), tiBeach)]

/-- Bool test: the tile at key p of t has the RIVER biome. -/
def riverAtB (t : TileMap) (p : ℤ × ℤ) : Bool :=
  match lookupTM t p with
  | some ti => decide (ti.tile.biome = BiomeType.RIVER)
  | none => false

theorem keysOf_nil : keysOf [] = [] := rfl

theorem keysOf_cons (e : (ℤ × ℤ) × TileInfo) (es : TileMap) :
    keysOf (e :: es) = e.1 :: keysOf es := rfl

theorem lookupTM_isSome_iff (t : TileMap) (p : ℤ × ℤ) :
    (lookupTM t p).isSome = true ↔ p ∈ keysOf t := by
  induction t with
  | nil => simp [lookupTM, keysOf]
  | cons e es ih =>
    by_cases h : e.1 = p
    · simp [lookupTM, h, keysOf_cons]
    · simp [lookupTM, h, keysOf_cons, ih, Ne.symm h]

theorem keysOf_updateTM (t : TileMap) (p : ℤ × ℤ) (ti : TileInfo) :
    keysOf (updateTM t p ti) = keysOf t := by
  unfold keysOf updateTM
  rw [List.map_map]
  apply List.map_congr_left
  intro a _
  by_cases h : a.1 = p <;> simp [h]

theorem lookupTM_updateTM (t : TileMap) (q p : ℤ × ℤ) (ti : TileInfo) :
    lookupTM (updateTM t q ti) p =
      if p = q then (lookupTM t p).map (fun _ => ti) else lookupTM t p := by
  induction t with
  | nil => by_cases hp : p = q <;> simp [updateTM, lookupTM, hp]
  | cons e es ih =>
    by_cases hq : e.1 = q <;> by_cases he : e.1 = p <;> by_cases hp : p = q <;>
      simp_all [updateTM, lookupTM]

theorem keysOf_foldl {σ α : Type} (proj : σ → TileMap) (f : σ → α → σ)
    (h : ∀ s x, keysOf (proj (f s x)) = keysOf (proj s)) :
    ∀ (l : List α) (s : σ), keysOf (proj (List.foldl f s l)) = keysOf (proj s) := by
  intro l
  induction l with
  | nil => intro s; rfl
  | cons x xs ih => intro s; rw [List.foldl_cons, ih (f s x), h s x]

theorem keysOf_erodeAt (t : TileMap) (p : ℤ × ℤ) :
    keysOf (erodeAt t p) = keysOf t := by
  unfold erodeAt
  cases lookupTM t p with
  | none => rfl
  | some ti =>
    dsimp only
    split
    · rfl
    · split
      · exact keysOf_updateTM ..
      · rfl

theorem keysOf_applyErosion (t : TileMap) :
    keysOf (applyErosion t) = keysOf t :=
  keysOf_foldl id erodeAt keysOf_erodeAt (keysOf t) t

theorem keysOf_widenAt (pos : ℤ × ℤ) (s : TileMap × RNG) (off : ℤ × ℤ) :
    keysOf (widenAt pos s off).1 = keysOf s.1 := by
  unfold widenAt
  dsimp only
  repeat' split
  all_goals first | rfl | exact keysOf_updateTM ..

theorem keysOf_traceStep (t : TileMap) (pos : ℤ × ℤ) (vis : List (ℤ × ℤ))
    (ti : TileInfo) (rng : RNG) :
    keysOf (traceStep t pos vis ti rng).1.1 = keysOf t := by
  unfold traceStep
  dsimp only
  split
  · rw [keysOf_foldl Prod.fst (widenAt pos) (keysOf_widenAt pos)]
    exact keysOf_updateTM ..
  · exact keysOf_updateTM ..

theorem keysOf_traceGo (n : ℕ) :
    ∀ (t : TileMap) (pos : ℤ × ℤ) (vis : List (ℤ × ℤ)) (rng : RNG),
      keysOf (traceGo n t pos vis rng).1 = keysOf t := by
  induction n with
  | zero => intro t pos vis rng; rfl
  | succ n ih =>
    intro t pos vis rng
    rw [traceGo]
    split
    · rfl
    · cases hl : lookupTM t pos with
      | none => rfl
      | some ti =>
        dsimp only
        cases hr : (traceStep t pos (pos :: vis) ti rng).2 with
        | none => exact keysOf_traceStep ..
        | some np => rw [ih]; exact keysOf_traceStep ..

theorem keysOf_generateRivers (t : TileMap) (cs : ℕ) (cell : CoarseCell) (rng : RNG) :
    keysOf (generateRivers t cs cell rng).1 = keysOf t := by
  unfold generateRivers
  split
  · rfl
  · dsimp only
    split
    · exact keysOf_traceGo ..
    · rfl

theorem keysOf_resourceAt (s : TileMap × RNG) (p : ℤ × ℤ) :
    keysOf (resourceAt s p).1 = keysOf s.1 := by
  unfold resourceAt
  dsimp only
  repeat' split
  all_goals first | rfl | exact keysOf_updateTM ..

theorem keysOf_placeResources (t : TileMap) (rng : RNG) :
    keysOf (placeResources t rng).1 = keysOf t :=
  keysOf_foldl Prod.fst resourceAt keysOf_resourceAt (keysOf t) (t, rng)

theorem keysOf_buildTiles (P : GenParams) (c : ChunkCoords)
    (cell : CoarseCell) (nbrs : NeighborCells) :
    keysOf (buildTiles P c cell nbrs) = standardKeys P.chunk_size := by
  unfold keysOf buildTiles standardKeys
  rw [List.map_flatMap]
  apply List.flatMap_congr
  intro ly _
  rw [List.map_map]
  rfl

theorem mem_standardKeys (cs : ℕ) (a b : ℤ) :
    (a, b) ∈ standardKeys cs ↔ 0 ≤ a ∧ a < (cs : ℤ) ∧ 0 ≤ b ∧ b < (cs : ℤ) := by
  unfold standardKeys
  simp only [List.mem_flatMap, List.mem_map, List.mem_range]
  constructor
  · rintro ⟨ly, hly, lx, hlx, heq⟩
    have ha : (lx : ℤ) = a := congrArg Prod.fst heq
    have hb : (ly : ℤ) = b := congrArg Prod.snd heq
    omega
  · rintro ⟨ha0, ha1, hb0, hb1⟩
    refine ⟨b.toNat, by omega, a.toNat, by omega, ?_⟩
    have : ((a.toNat : ℤ), ((b.toNat : ℤ))) = (a, b) := by
      rw [Int.toNat_of_nonneg ha0, Int.toNat_of_nonneg hb0]
    exact this

theorem keysOf_computeChunkTiles (P : GenParams) (world : WorldGrid)
    (c : ChunkCoords) (off : ℤ) :
    keysOf (computeChunkTiles P world c off) = standardKeys P.chunk_size := by
  unfold computeChunkTiles
  dsimp only
  rw [keysOf_placeResources]
  split
  · rw [keysOf_generateRivers, keysOf_applyErosion, keysOf_buildTiles]
  · rw [keysOf_applyErosion, keysOf_buildTiles]

theorem lookupKey_cons_self (k : ChunkKey) (t : TileMap) (st : GenState) :
    lookupKey ((k, t) :: st) k = some t := by
  simp [lookupKey]

theorem generate_chunk_of_cached (P : GenParams) (world : WorldGrid)
    (st : GenState) (c : ChunkCoords) (off : ℤ) (t : TileMap)
    (h : lookupKey st (c.mx, c.my, c.cx, c.cy) = some t) :
    generate_chunk P world st c off = (t, st) := by
  unfold generate_chunk
  dsimp only
  rw [h]

theorem generate_chunk_of_uncached (P : GenParams) (world : WorldGrid)
    (st : GenState) (c : ChunkCoords) (off : ℤ)
    (h : lookupKey st (c.mx, c.my, c.cx, c.cy) = none) :
    generate_chunk P world st c off =
      (computeChunkTiles P world c off,
       ((c.mx, c.my, c.cx, c.cy), computeChunkTiles P world c off) :: st) := by
  unfold generate_chunk
  dsimp only
  rw [h]

/-- The tile at key p exists and already carries the RIVER biome. -/
def RiverAt (t : TileMap) (p : ℤ × ℤ) : Prop :=
  ∃ ti, lookupTM t p = some ti ∧ ti.tile.biome = BiomeType.RIVER

theorem riverAtB_iff (t : TileMap) (p : ℤ × ℤ) :
    riverAtB t p = true ↔ RiverAt t p := by
  unfold riverAtB RiverAt
  cases h : lookupTM t p with
  | none => simp
  | some ti => simp

theorem riverAt_updateTM (t : TileMap) (q p : ℤ × ℤ) (ti' : TileInfo)
    (hb : ti'.tile.biome = BiomeType.RIVER) (h : RiverAt t p) :
    RiverAt (updateTM t q ti') p := by
  obtain ⟨ti, hl, hr⟩ := h
  unfold RiverAt
  rw [lookupTM_updateTM]
  by_cases hpq : p = q
  · subst hpq
    exact ⟨ti', by simp [hl], hb⟩
  · exact ⟨ti, by simp [hpq, hl], hr⟩

theorem riverAt_updateTM_self (t : TileMap) (p : ℤ × ℤ) (ti ti' : TileInfo)
    (hl : lookupTM t p = some ti) (hb : ti'.tile.biome = BiomeType.RIVER) :
    RiverAt (updateTM t p ti') p := by
  unfold RiverAt
  rw [lookupTM_updateTM]
  simp [hl]
  exact hb

theorem riverAt_widenAt (pos : ℤ × ℤ) (s : TileMap × RNG) (off : ℤ × ℤ)
    (p : ℤ × ℤ) (h : RiverAt s.1 p) : RiverAt (widenAt pos s off).1 p := by
  unfold widenAt
  dsimp only
  split
  · exact h
  · split
    · split
      · exact riverAt_updateTM _ _ _ _ rfl h
      · exact h
    · exact h

theorem riverAt_widenFold (pos : ℤ × ℤ) (l : List (ℤ × ℤ)) :
    ∀ (s : TileMap × RNG) (p : ℤ × ℤ), RiverAt s.1 p →
      RiverAt (l.foldl (widenAt pos) s).1 p := by
  induction l with
  | nil => intro s p h; exact h
  | cons x xs ih =>
    intro s p h
    rw [List.foldl_cons]
    exact ih (widenAt pos s x) p (riverAt_widenAt pos s x p h)

theorem riverAt_traceStep (t : TileMap) (pos : ℤ × ℤ) (vis : List (ℤ × ℤ))
    (ti : TileInfo) (rng : RNG) (p : ℤ × ℤ) (h : RiverAt t p) :
    RiverAt (traceStep t pos vis ti rng).1.1 p := by
  unfold traceStep
  dsimp only
  split
  · exact riverAt_widenFold pos offs8 _ p (riverAt_updateTM _ _ _ _ rfl h)
  · exact riverAt_updateTM _ _ _ _ rfl h

theorem riverAt_traceStep_self (t : TileMap) (pos : ℤ × ℤ) (vis : List (ℤ × ℤ))
    (ti : TileInfo) (rng : RNG) (hl : lookupTM t pos = some ti) :
    RiverAt (traceStep t pos vis ti rng).1.1 pos := by
  unfold traceStep
  dsimp only
  split
  · exact riverAt_widenFold pos offs8 _ pos (riverAt_updateTM_self t pos ti _ hl rfl)
  · exact riverAt_updateTM_self t pos ti _ hl rfl

theorem riverAt_traceGo (n : ℕ) :
    ∀ (t : TileMap) (pos : ℤ × ℤ) (vis : List (ℤ × ℤ)) (rng : RNG) (p : ℤ × ℤ),
      RiverAt t p → RiverAt (traceGo n t pos vis rng).1 p := by
  induction n with
  | zero => intro t pos vis rng p h; exact h
  | succ n ih =>
    intro t pos vis rng p h
    rw [traceGo]
    split
    · exact h
    · split
      · exact h
      · dsimp only
        split
        · exact riverAt_traceStep _ _ _ _ _ _ h
        · exact ih _ _ _ _ _ (riverAt_traceStep _ _ _ _ _ _ h)

theorem zeroQ : (0.0 : ℚ) = 0 := by norm_num

theorem foldlMax_mem (es : List ((ℤ × ℤ) × TileInfo)) :
    ∀ e, (es.foldl (fun b q => if q.2.tile.height > b.2.tile.height then q else b) e) ∈ e :: es := by
  induction es with
  | nil => intro e; exact List.mem_cons_self e []
  | cons x xs ih =>
    intro e
    rw [List.foldl_cons]
    rcases List.mem_cons.mp (ih (if x.2.tile.height > e.2.tile.height then x else e)) with h1 | h2
    · rw [h1]
      by_cases hc : x.2.tile.height > e.2.tile.height
      · simp [hc]
      · simp [hc]
    · exact List.mem_cons_of_mem _ (List.mem_cons_of_mem _ h2)

theorem riverStartKey_mem (t : TileMap) (p : ℤ × ℤ) (h : riverStartKey t = some p) :
    p ∈ keysOf t := by
  unfold riverStartKey at h
  cases hf : t.filter (fun q => decide (q.2.tile.height > 0.3) && q.2.is_land) with
  | nil => rw [hf] at h; cases h
  | cons e es =>
    rw [hf] at h
    dsimp only at h
    injection h with h
    have hm := foldlMax_mem es e
    rw [← hf] at hm
    have hmt : (es.foldl (fun b q => if q.2.tile.height > b.2.tile.height then q else b) e) ∈ t :=
      List.mem_of_mem_filter hm
    rw [← h]
    exact List.mem_map_of_mem Prod.fst hmt

theorem determine_biome_ocean_iff (h m tp : ℚ) :
    determine_biome h m tp = BiomeType.OCEAN ↔ h < 0 := by
  unfold determine_biome
  simp only [zeroQ]
  by_cases h0 : h < 0
  · simp [h0]
  · simp only [h0, if_false, iff_false]
    split_ifs <;> simp

theorem determine_biome_water_iff (h m tp : ℚ) :
    determine_biome h m tp ∈ waterBiomes ↔ h < 0 := by
  unfold determine_biome waterBiomes
  simp only [zeroQ]
  by_cases h0 : h < 0
  · simp [h0]
  · simp only [h0, if_false, iff_false]
    split_ifs <;> simp

theorem classifyLandform_ocean_iff (e : ℚ) (ns : List ℚ) :
    classifyLandform e ns = LandformType.OCEAN ↔ e < 0 := by
  unfold classifyLandform
  dsimp only
  simp only [zeroQ]
  by_cases h0 : e < 0
  · simp [h0]
  · simp only [h0, if_false, iff_false]
    split_ifs <;> simp

theorem generateTile_water_iff (P : GenParams) (c : ChunkCoords) (lx ly : ℕ)
    (cell : CoarseCell) (nbrs : NeighborCells) :
    (generateTile P c lx ly cell nbrs).is_water = true ↔
      (generateTile P c lx ly cell nbrs).tile.height < 0 := by
  unfold generateTile TileInfo.is_water
  dsimp only
  rw [decide_eq_true_iff]
  exact determine_biome_water_iff ..


/-- The ocean tile every blended border position of the worldEx chunk
produces: height (0.005 - 0.5)/2 = -99/400. -/
def oceanTileAt (wx wy : ℤ) : TileInfo :=
  { x := wx, y := wy,
    tile := { glyph := '~', biome := BiomeType.OCEAN, height := -99/400, moisture := 1/2 },
    temperature := 1/2, passable := false, resource_type := none, resource_quantity := 0 }

/-- A beach tile with the given height and moisture (temperature 0.5). -/
def beachTileAt (wx wy : ℤ) (h m : ℚ) : TileInfo :=
  { x := wx, y := wy,
    tile := { glyph := '.', biome := BiomeType.BEACH, height := h, moisture := m },
    temperature := 1/2, passable := true, resource_type := none, resource_quantity := 0 }

theorem is_water_OCEAN (x y : ℤ) (g : Char) (h' m tp : ℚ) (pa : Bool)
    (rt : Option String) (rq : ℤ) :
    (TileInfo.mk x y (Tile.mk g BiomeType.OCEAN h' m) tp pa rt rq).is_water = true := rfl

theorem is_water_BEACH (x y : ℤ) (g : Char) (h' m tp : ℚ) (pa : Bool)
    (rt : Option String) (rq : ℤ) :
    (TileInfo.mk x y (Tile.mk g BiomeType.BEACH h' m) tp pa rt rq).is_water = false := rfl

theorem is_land_OCEAN (x y : ℤ) (g : Char) (h' m tp : ℚ) (pa : Bool)
    (rt : Option String) (rq : ℤ) :
    (TileInfo.mk x y (Tile.mk g BiomeType.OCEAN h' m) tp pa rt rq).is_land = false := rfl

theorem is_land_BEACH (x y : ℤ) (g : Char) (h' m tp : ℚ) (pa : Bool)
    (rt : Option String) (rq : ℤ) :
    (TileInfo.mk x y (Tile.mk g BiomeType.BEACH h' m) tp pa rt rq).is_land
      = decide ((0:ℚ) ≤ h') := rfl

theorem can_mine_BEACH (x y : ℤ) (g : Char) (h' m tp : ℚ) (pa : Bool)
    (rt : Option String) (rq : ℤ) :
    (TileInfo.mk x y (Tile.mk g BiomeType.BEACH h' m) tp pa rt rq).can_mine = false := by
  unfold TileInfo.can_mine
  simp

theorem oceanTileAt_def (wx wy : ℤ) : oceanTileAt wx wy =
    TileInfo.mk wx wy (Tile.mk '~' BiomeType.OCEAN (-99/400) (1/2)) (1/2) false none 0 := rfl

theorem beachTileAt_def (wx wy : ℤ) (h m : ℚ) : beachTileAt wx wy h m =
    TileInfo.mk wx wy (Tile.mk '.' BiomeType.BEACH h m) (1/2) true none 0 := rfl

theorem nbrsEx_eq : getNeighborCells worldEx 0 0 =
    { north := defaultOceanCell, south := defaultOceanCell, east := defaultOceanCell,
      west := defaultOceanCell, northeast := defaultOceanCell, northwest := defaultOceanCell,
      southeast := defaultOceanCell, southwest := defaultOceanCell } := by
  norm_num [getNeighborCells, worldEx]

theorem buildEx_eq : buildTiles PexA { mx := 0, my := 0 } cellEx (getNeighborCells worldEx 0 0) =
    [((0, 0), oceanTileAt 0 0), ((1, 0), oceanTileAt 1 0),
     ((0, 1), oceanTileAt 0 1), ((1, 1), beachTileAt 1 1 (1/200) (1/2))] := by
  rw [nbrsEx_eq]
  norm_num [buildTiles, generateTile, blendProperty, determine_biome, PexA, cellEx,
    defaultOceanCell, get_default_glyph_for_biome, waterBiomes, oceanTileAt, beachTileAt,
    List.range_succ, -Prod.mk_zero_zero, -Prod.mk_one_one]
  decide

set_option maxHeartbeats 1000000 in
theorem erodeEx_eq : applyErosion
    [((0, 0), oceanTileAt 0 0), ((1, 0), oceanTileAt 1 0),
     ((0, 1), oceanTileAt 0 1), ((1, 1), beachTileAt 1 1 (1/200) (1/2))] =
    [((0, 0), oceanTileAt 0 0), ((1, 0), oceanTileAt 1 0),
     ((0, 1), oceanTileAt 0 1), ((1, 1), beachTileAt 1 1 (-11/800) (163/320))] := by
  norm_num [applyErosion, keysOf, erodeAt, countWaterNbrs, lookupTM, updateTM,
    oceanTileAt_def, beachTileAt_def, is_water_OCEAN, is_water_BEACH,
    List.range_succ, -Prod.mk_zero_zero, -Prod.mk_one_one]

theorem resourcesEx_eq (rng : RNG) : (placeResources
    [((0, 0), oceanTileAt 0 0), ((1, 0), oceanTileAt 1 0),
     ((0, 1), oceanTileAt 0 1), ((1, 1), beachTileAt 1 1 (-11/800) (163/320))] rng).1 =
    [((0, 0), oceanTileAt 0 0), ((1, 0), oceanTileAt 1 0),
     ((0, 1), oceanTileAt 0 1), ((1, 1), beachTileAt 1 1 (-11/800) (163/320))] := by
  norm_num [placeResources, keysOf, resourceAt, lookupTM,
    oceanTileAt_def, beachTileAt_def, is_land_OCEAN, is_land_BEACH,
    -Prod.mk_zero_zero, -Prod.mk_one_one]

theorem chunkEx_eq : chunkEx =
    [((0, 0), oceanTileAt 0 0), ((1, 0), oceanTileAt 1 0),
     ((0, 1), oceanTileAt 0 1), ((1, 1), beachTileAt 1 1 (-11/800) (163/320))] := by
  unfold chunkEx computeChunkTiles
  dsimp only
  rw [show (worldEx 0 0).getD defaultOceanCell = cellEx from rfl]
  rw [buildEx_eq, erodeEx_eq]
  rw [show cellEx.has_river = false from rfl]
  simp only [Bool.false_eq_true, if_false]
  exact resourcesEx_eq _

theorem nbrs3_eq : getNeighborCells world3 1 1 =
    { north := cell3 false, south := cell3 false, east := cell3 false,
      west := cell3 false, northeast := cell3 false, northwest := cell3 false,
      southeast := cell3 false, southwest := cell3 false } := by
  norm_num [getNeighborCells, world3, cell3]

theorem build3_eq : buildTiles PexA { mx := 1, my := 1 } (cell3 true) (getNeighborCells world3 1 1) =
    [((0, 0), beachTileAt 2 2 (1/20) (1/2)), ((1, 0), beachTileAt 3 2 (1/20) (1/2)),
     ((0, 1), beachTileAt 2 3 (1/20) (1/2)), ((1, 1), beachTileAt 3 3 (1/20) (1/2))] := by
  rw [nbrs3_eq]
  norm_num [buildTiles, generateTile, blendProperty, determine_biome, PexA, cell3,
    get_default_glyph_for_biome, waterBiomes, beachTileAt,
    List.range_succ, -Prod.mk_zero_zero, -Prod.mk_one_one]
  decide

set_option maxHeartbeats 1000000 in
theorem erode3_eq : applyErosion
    [((0, 0), beachTileAt 2 2 (1/20) (1/2)), ((1, 0), beachTileAt 3 2 (1/20) (1/2)),
     ((0, 1), beachTileAt 2 3 (1/20) (1/2)), ((1, 1), beachTileAt 3 3 (1/20) (1/2))] =
    [((0, 0), beachTileAt 2 2 (1/20) (1/2)), ((1, 0), beachTileAt 3 2 (1/20) (1/2)),
     ((0, 1), beachTileAt 2 3 (1/20) (1/2)), ((1, 1), beachTileAt 3 3 (1/20) (1/2))] := by
  norm_num [applyErosion, keysOf, erodeAt, countWaterNbrs, lookupTM, updateTM,
    beachTileAt_def, is_water_BEACH,
    List.range_succ, -Prod.mk_zero_zero, -Prod.mk_one_one]

theorem rivers3_eq (rng : RNG) : generateRivers
    [((0, 0), beachTileAt 2 2 (1/20) (1/2)), ((1, 0), beachTileAt 3 2 (1/20) (1/2)),
     ((0, 1), beachTileAt 2 3 (1/20) (1/2)), ((1, 1), beachTileAt 3 3 (1/20) (1/2))]
    2 (cell3 true) rng =
    ([((0, 0), beachTileAt 2 2 (1/20) (1/2)), ((1, 0), beachTileAt 3 2 (1/20) (1/2)),
      ((0, 1), beachTileAt 2 3 (1/20) (1/2)), ((1, 1), beachTileAt 3 3 (1/20) (1/2))], rng) := by
  norm_num [generateRivers, cell3, riverStartKey, beachTileAt_def, is_water_BEACH,
    -Prod.mk_zero_zero, -Prod.mk_one_one]

theorem resources3_eq (v : ℕ → ℚ) (n : ℕ) (hv : ∀ i, v i = 0.5) : (placeResources
    [((0, 0), beachTileAt 2 2 (1/20) (1/2)), ((1, 0), beachTileAt 3 2 (1/20) (1/2)),
     ((0, 1), beachTileAt 2 3 (1/20) (1/2)), ((1, 1), beachTileAt 3 3 (1/20) (1/2))]
    { vals := v, idx := n }).1 =
    [((0, 0), beachTileAt 2 2 (1/20) (1/2)), ((1, 0), beachTileAt 3 2 (1/20) (1/2)),
     ((0, 1), beachTileAt 2 3 (1/20) (1/2)), ((1, 1), beachTileAt 3 3 (1/20) (1/2))] := by
  norm_num [placeResources, keysOf, resourceAt, lookupTM, RNG.next, hv,
    beachTileAt_def, is_land_BEACH, can_mine_BEACH,
    -Prod.mk_zero_zero, -Prod.mk_one_one]

theorem chunk3_eq : chunk3 =
    [((0, 0), beachTileAt 2 2 (1/20) (1/2)), ((1, 0), beachTileAt 3 2 (1/20) (1/2)),
     ((0, 1), beachTileAt 2 3 (1/20) (1/2)), ((1, 1), beachTileAt 3 3 (1/20) (1/2))] := by
  unfold chunk3 computeChunkTiles
  dsimp only
  rw [show (world3 1 1).getD defaultOceanCell = cell3 true by norm_num [world3]]
  rw [build3_eq, erode3_eq]
  rw [show (cell3 true).has_river = true from rfl]
  simp only [if_true]
  rw [show PexA.chunk_size = 2 from rfl]
  rw [rivers3_eq]
  exact resources3_eq _ _ (fun i => by norm_num [PexA])

/-- Degenerate generator parameters: chunk_size 0 (for the C6 example). -/
def P0 : GenParams :=
  { worldSeed := 0, chunk_size := 0,
    elevNoise := fun _ _ => 0, moistNoise := fun _ _ => 0,
    rngOf := fun _ _ => 0 }

/-- A world grid with no cells at all. -/
def worldNone : WorldGrid := fun _ _ => none

/-- Claim C1 (amended): at macro scale a cell's biome is OCEAN iff its
elevation is below sea level (0.0) and its landform is OCEAN iff its
elevation is below sea level; at micro scale the equivalence holds at
classification time - the classifier yields a water-class biome iff the
height is negative, and the tile built by _generate_tile is water iff its
stored height is negative.  (For the final generated chunk the micro
equivalence fails; see the counterexample.) -/
theorem C1_water_class :
    (∀ e m tp : ℚ, determine_biome e m tp = BiomeType.OCEAN ↔ e < 0) ∧
    (∀ (e : ℚ) (ns : List ℚ), classifyLandform e ns = LandformType.OCEAN ↔ e < 0) ∧
    (∀ e m tp : ℚ, determine_biome e m tp ∈ waterBiomes ↔ e < 0) ∧
    (∀ (P : GenParams) (c : ChunkCoords) (lx ly : ℕ) (cell : CoarseCell)
       (nbrs : NeighborCells),
      (generateTile P c lx ly cell nbrs).is_water = true ↔
        (generateTile P c lx ly cell nbrs).tile.height < 0) :=
  ⟨determine_biome_ocean_iff, classifyLandform_ocean_iff,
   determine_biome_water_iff, generateTile_water_iff⟩

/-- Claim C1 counterexample: chunkEx is generated by the full chunk
pipeline over the 1x1 macro world worldEx, yet its tile at (1,1) has the
non-water biome BEACH together with height -11/800 < 0 (erosion lowered
the beach tile below sea level without reclassifying it), so "biome is
water-class iff height < 0" is false for the tiles of generated chunks. -/
theorem C1_counterexample :
    ((lookupTM chunkEx (1, 1)).map
      (fun ti => decide (ti.tile.biome = BiomeType.BEACH) && !ti.is_water
        && decide (ti.tile.height < 0))) = some true := by
  rw [chunkEx_eq]
  norm_num [lookupTM, beachTileAt_def, is_water_BEACH,
    -Prod.mk_zero_zero, -Prod.mk_one_one]

/-- Claim C2: the biome classifier is a pure function of (elevation,
moisture, temperature) evaluated by first-match-wins ordered rules, and on
the five reference inputs it returns OCEAN, BEACH, MOUNTAINS, DESERT and
FOREST respectively. -/
theorem C2_biome_table :
    determine_biome (-0.5) 0.5 0.5 = BiomeType.OCEAN ∧
    determine_biome 0.05 0.5 0.5 = BiomeType.BEACH ∧
    determine_biome 0.8 0.3 0.5 = BiomeType.MOUNTAINS ∧
    determine_biome 0.3 0.1 0.8 = BiomeType.DESERT ∧
    determine_biome 0.4 0.8 0.4 = BiomeType.FOREST := by
  refine ⟨?_, ?_, ?_, ?_, ?_⟩ <;> norm_num [determine_biome]

/-- Claim C4 (code evaluated at the failing input): constructing with the
explicit integer seed 0 does not pin down the effective seed - Python's
`seed or random.randint(...)` treats 0 as unspecified, so the effective
seed becomes whatever the ambient RNG returns (1 in one run, 2 in the
other, and 1 differs from 2), while a nonzero seed such as 42 is always
used as given. -/
theorem C4_seed_zero :
    effectiveSeed (some 0) 1 = 1 ∧ effectiveSeed (some 0) 2 = 2 ∧
    (1 : ℤ) ≠ 2 ∧
    effectiveSeed (some 42) 1 = 42 ∧ effectiveSeed (some 42) 2 = 42 := by
  refine ⟨by decide, by decide, by decide, by decide, by decide⟩

/-- Claim C5: generate_chunk is idempotent on the cache - after one call,
calling it again with the same coordinates and offset returns the very
chunk stored by the first call and leaves the generator state unchanged
(no recomputation). -/
theorem C5_cache_idempotent (P : GenParams) (world : WorldGrid) (st : GenState)
    (c : ChunkCoords) (off : ℤ) :
    generate_chunk P world (generate_chunk P world st c off).2 c off
      = generate_chunk P world st c off := by
  cases hl : lookupKey st (c.mx, c.my, c.cx, c.cy) with
  | some t =>
    rw [generate_chunk_of_cached P world st c off t hl]
    exact generate_chunk_of_cached P world st c off t hl
  | none =>
    rw [generate_chunk_of_uncached P world st c off hl]
    exact generate_chunk_of_cached P world _ c off _ (lookupKey_cons_self _ _ _)

/-- Claim C6 (code evaluated at the failing inputs): construction rejects
nothing - a macro world of width 0 or -3 is built with an empty cell
grid, and a chunk generator with chunk_size 0 builds empty chunks; the
degenerate configuration is accepted silently. -/
theorem C6_no_validation :
    macroGridKeys 0 16 = [] ∧ macroGridKeys (-3) 5 = [] ∧
    computeChunkTiles P0 worldNone { mx := 0, my := 0 } 0 = [] := by
  exact ⟨by norm_num [macroGridKeys, pyRange], by norm_num [macroGridKeys, pyRange], rfl⟩

theorem wood_ne_empty : ("wood" : String) ≠ "" := by decide

/-- Claim C7: harvest_resource returns min(amount, available) and
decrements the quantity by the returned value; the resource is cleared
(type absent, quantity 0) exactly when the remaining quantity reaches 0;
harvesting with no resource or non-positive quantity returns 0 and changes
nothing; and the concrete scenario holds: set 50, harvest 20 -> returns 20
leaving 30 with the type still present, then harvest 50 -> returns 30 and
clears the resource. -/
theorem C7_harvest (t : TileInfo) (amount : ℤ) :
    (pyTruthy t.resource_type = false ∨ t.resource_quantity ≤ 0 →
      t.harvest_resource amount = (0, t)) ∧
    (pyTruthy t.resource_type = true → 0 < t.resource_quantity →
      (t.harvest_resource amount).1 = min amount t.resource_quantity ∧
      (t.harvest_resource amount).2.resource_quantity
        = t.resource_quantity - min amount t.resource_quantity ∧
      ((t.harvest_resource amount).2.resource_quantity = 0 →
        (t.harvest_resource amount).2.resource_type = none) ∧
      (0 < (t.harvest_resource amount).2.resource_quantity →
        (t.harvest_resource amount).2.resource_type = t.resource_type)) ∧
    (((t.set_resource "wood" 50).harvest_resource 20).1 = 20 ∧
     ((t.set_resource "wood" 50).harvest_resource 20).2.resource_quantity = 30 ∧
     ((t.set_resource "wood" 50).harvest_resource 20).2.resource_type = some "wood" ∧
     (((t.set_resource "wood" 50).harvest_resource 20).2.harvest_resource 50).1 = 30 ∧
     (((t.set_resource "wood" 50).harvest_resource 20).2.harvest_resource 50).2.resource_type
       = none ∧
     (((t.set_resource "wood" 50).harvest_resource 20).2.harvest_resource 50).2.resource_quantity
       = 0) := by
  refine ⟨?_, ?_, ?_⟩
  · intro hcase
    unfold TileInfo.harvest_resource
    rcases hcase with hp | hq
    · simp [hp]
    · simp [hq]
  · intro hp hq
    have hc : ¬(t.resource_quantity ≤ 0) := by omega
    have hcond : (!pyTruthy t.resource_type || decide (t.resource_quantity ≤ 0)) = false := by
      rw [hp]
      simp [hc]
    unfold TileInfo.harvest_resource
    simp only [hcond, Bool.false_eq_true, if_false]
    rcases le_total amount t.resource_quantity with hle | hle
    · simp only [min_eq_left hle]
      split_ifs with h2
      · refine ⟨rfl, by dsimp only; omega, fun _ => rfl, ?_⟩
        intro h3
        dsimp only at h3
        exact absurd h3 (by omega)
      · refine ⟨rfl, rfl, ?_, fun _ => rfl⟩
        intro hzero
        dsimp only at hzero
        exact absurd hzero (by omega)
    · simp only [min_eq_right hle]
      split_ifs with h2
      · refine ⟨rfl, by dsimp only; omega, fun _ => rfl, ?_⟩
        intro h3
        dsimp only at h3
        exact absurd h3 (by omega)
      · exact absurd (by omega) h2
  · norm_num [TileInfo.set_resource, TileInfo.harvest_resource, pyTruthy, wood_ne_empty]

/-- Claim C7 witness: the cap-and-decrement law evaluated on a concrete
tile holding 30 wood harvested with amount 10. -/
theorem C7_harvest_witness :
    pyTruthy (tiLand.set_resource "wood" 30).resource_type = true ∧
    0 < (tiLand.set_resource "wood" 30).resource_quantity ∧
    (((tiLand.set_resource "wood" 30).harvest_resource 10).1
        = min 10 (tiLand.set_resource "wood" 30).resource_quantity ∧
      ((tiLand.set_resource "wood" 30).harvest_resource 10).2.resource_quantity
        = (tiLand.set_resource "wood" 30).resource_quantity
          - min 10 (tiLand.set_resource "wood" 30).resource_quantity ∧
      (((tiLand.set_resource "wood" 30).harvest_resource 10).2.resource_quantity = 0 →
        ((tiLand.set_resource "wood" 30).harvest_resource 10).2.resource_type = none) ∧
      (0 < ((tiLand.set_resource "wood" 30).harvest_resource 10).2.resource_quantity →
        ((tiLand.set_resource "wood" 30).harvest_resource 10).2.resource_type
          = (tiLand.set_resource "wood" 30).resource_type)) :=
  ⟨by norm_num [pyTruthy, tiLand, TileInfo.set_resource, wood_ne_empty],
   by norm_num [tiLand, TileInfo.set_resource],
   (C7_harvest (tiLand.set_resource "wood" 30) 10).2.1
     (by norm_num [pyTruthy, tiLand, TileInfo.set_resource, wood_ne_empty])
     (by norm_num [tiLand, TileInfo.set_resource])⟩

/-- Claim C3 (amended): after the macro moisture phase the cell's moisture
is clamp(base + ocean_proximity * 0.3 * max(0, 1 - elevation), 0, 1) with
base = 0.5 + (draw - 0.5) * 0.4 (hence in [0.3, 0.7) for a draw in
[0, 1)), and ocean_proximity is 1 - d/5 for the smallest Manhattan ring
distance d in 1..5 containing an in-grid cell with elevation below sea
level, or 0 when no such ring exists.  (The claim's damping factor
1 - max(0, elevation) is wrong for cells below sea level; see the
counterexample.) -/
theorem C3_moisture (w h : ℤ) (elev : ℤ → ℤ → ℚ) (draws : ℕ → ℚ) (x y : ℤ) :
    (moistureAt w h elev draws x y
      = max 0 (min 1 ((0.5 + (draws (y * w + x).toNat - 0.5) * 0.4)
          + oceanProximity w h elev x y * 0.3 * max 0 (1 - elev x y)))) ∧
    (∀ d : ℕ, 1 ≤ d → d ≤ 5 → ringHasOcean w h elev x y d = true →
      (∀ d' : ℕ, 1 ≤ d' → d' < d → ringHasOcean w h elev x y d' = false) →
      oceanProximity w h elev x y = 1 - (d : ℚ) / 5) ∧
    ((∀ d : ℕ, 1 ≤ d → d ≤ 5 → ringHasOcean w h elev x y d = false) →
      oceanProximity w h elev x y = 0) ∧
    (0 ≤ draws (y * w + x).toNat → draws (y * w + x).toNat < 1 →
      0.3 ≤ 0.5 + (draws (y * w + x).toNat - 0.5) * 0.4
        ∧ 0.5 + (draws (y * w + x).toNat - 0.5) * 0.4 < 0.7) := by
  refine ⟨?_, ?_, ?_, ?_⟩
  · unfold moistureAt
    norm_num
  · intro d hd1 hd5 hring hsmall
    interval_cases d
    · simp [oceanProximity, hring]
    · have h1 := hsmall 1 (by norm_num) (by norm_num)
      simp [oceanProximity, hring, h1]
    · have h1 := hsmall 1 (by norm_num) (by norm_num)
      have h2 := hsmall 2 (by norm_num) (by norm_num)
      simp [oceanProximity, hring, h1, h2]
    · have h1 := hsmall 1 (by norm_num) (by norm_num)
      have h2 := hsmall 2 (by norm_num) (by norm_num)
      have h3 := hsmall 3 (by norm_num) (by norm_num)
      simp [oceanProximity, hring, h1, h2, h3]
    · have h1 := hsmall 1 (by norm_num) (by norm_num)
      have h2 := hsmall 2 (by norm_num) (by norm_num)
      have h3 := hsmall 3 (by norm_num) (by norm_num)
      have h4 := hsmall 4 (by norm_num) (by norm_num)
      simp [oceanProximity, hring, h1, h2, h3, h4]
  · intro hnone
    have h1 := hnone 1 (by norm_num) (by norm_num)
    have h2 := hnone 2 (by norm_num) (by norm_num)
    have h3 := hnone 3 (by norm_num) (by norm_num)
    have h4 := hnone 4 (by norm_num) (by norm_num)
    have h5 := hnone 5 (by norm_num) (by norm_num)
    simp [oceanProximity, h1, h2, h3, h4, h5]
  · intro hlo hhi
    constructor <;> nlinarith [hlo, hhi]

/-- Claim C3 witness: the ring characterization evaluated on the concrete
all-ocean 2x1 grid - the distance-1 ring of (0,0) contains the in-grid
ocean cell (1,0), so the proximity is 1 - 1/5 = 4/5. -/
theorem C3_moisture_witness :
    ringHasOcean 2 1 elevC3 0 0 1 = true ∧
    oceanProximity 2 1 elevC3 0 0 = 1 - (1 : ℚ) / 5 :=
  ⟨by norm_num [ringHasOcean, inGridQ, elevC3, List.range_succ],
   (C3_moisture 2 1 elevC3 drawsC3 0 0).2.1 1 (by norm_num) (by norm_num)
     (by norm_num [ringHasOcean, inGridQ, elevC3, List.range_succ])
     (fun d' hd1 hd2 => absurd (Nat.lt_of_lt_of_le hd2 (Nat.le_refl 1)) (by omega))⟩

/-- Claim C3 counterexample: on the all-ocean 2x1 grid with base draw 0.5
the code computes moisture 0.86 for cell (0,0) (factor max(0, 1-(-0.5)) =
1.5), while the claim's formula clamp(base + prox * 0.3 * (1 - max(0,
elevation))) yields 0.74 - the two differ on below-sea-level cells. -/
theorem C3_counterexample :
    moistureAt 2 1 elevC3 drawsC3 0 0 = 43/50 ∧
    claimMoistureFormula (1/2) (oceanProximity 2 1 elevC3 0 0) (elevC3 0 0) = 37/50 ∧
    (43 : ℚ)/50 ≠ 37/50 := by
  refine ⟨?_, ?_, by norm_num⟩
  · norm_num [moistureAt, oceanProximity, ringHasOcean, inGridQ, elevC3, drawsC3,
      List.range_succ]
  · norm_num [claimMoistureFormula, oceanProximity, ringHasOcean, inGridQ, elevC3,
      List.range_succ]

/-- Claim C8 (amended): for a river-bearing macro cell with no recorded
entry side, the micro river walk starts at the highest land tile among
those of height above 0.3 (first such tile in dict order on ties), and
whenever the chunk contains at least one land tile of height above 0.3,
the tile at that start key is converted to the RIVER biome.  (A land tile
alone is not enough; see the counterexample.) -/
theorem C8_river_start (t : TileMap) (cs : ℕ) (cell : CoarseCell) (rng : RNG)
    (hr : cell.has_river = true) (hs : cell.river_entry_sides = [])
    (hex : t.any (fun q => decide (q.2.tile.height > 0.3) && q.2.is_land) = true) :
    ((riverStartKey t).map (riverAtB (generateRivers t cs cell rng).1)).getD false = true := by
  obtain ⟨q, hqmem, hqpred⟩ := List.any_eq_true.mp hex
  have hne : t.filter (fun q => decide (q.2.tile.height > 0.3) && q.2.is_land) ≠ [] := by
    intro hnil
    have hq := List.filter_eq_nil_iff.mp hnil q hqmem
    rw [hqpred] at hq
    exact hq rfl
  obtain ⟨p, hp⟩ : ∃ p, riverStartKey t = some p := by
    unfold riverStartKey
    cases hf : t.filter (fun q => decide (q.2.tile.height > 0.3) && q.2.is_land) with
    | nil => exact absurd hf hne
    | cons e es => exact ⟨_, rfl⟩
  have hmem : p ∈ keysOf t := riverStartKey_mem t p hp
  obtain ⟨ti, hti⟩ : ∃ ti, lookupTM t p = some ti :=
    Option.isSome_iff_exists.mp ((lookupTM_isSome_iff t p).mpr hmem)
  rw [hp]
  simp only [Option.map_some', Option.getD_some]
  rw [riverAtB_iff]
  unfold generateRivers
  simp only [hr, hs, Bool.not_true, Bool.false_eq_true, if_false,
    List.not_mem_nil, ite_false]
  rw [hp]
  unfold traceChunkRiver
  rw [show (100 : ℕ) = 99 + 1 from rfl]
  dsimp only
  rw [traceGo.eq_def]
  dsimp only
  simp only [List.not_mem_nil, ite_false]
  rw [hti]
  dsimp only
  cases hstep : (traceStep t p (p :: []) ti rng).2 with
  | none => exact riverAt_traceStep_self t p (p :: []) ti rng hti
  | some np =>
    exact riverAt_traceGo 99 _ np (p :: []) _ p
      (riverAt_traceStep_self t p (p :: []) ti rng hti)

/-- Claim C8 witness: the amended statement applied to a one-tile chunk
holding a grassland tile of height 0.5, for a river-bearing cell with no
recorded entry side: the walk starts at that tile and converts it to
RIVER. -/
theorem C8_river_start_witness :
    cellW.has_river = true ∧ cellW.river_entry_sides = [] ∧
    tW.any (fun q => decide (q.2.tile.height > 0.3) && q.2.is_land) = true ∧
    ((riverStartKey tW).map (riverAtB (generateRivers tW 1 cellW rngW).1)).getD false
      = true :=
  ⟨rfl, rfl,
   by norm_num [tW, tiLand, TileInfo.is_land, TileInfo.is_water, waterBiomes]; decide,
   C8_river_start tW 1 cellW rngW rfl rfl
     (by norm_num [tW, tiLand, TileInfo.is_land, TileInfo.is_water, waterBiomes]; decide)⟩

/-- Claim C8 counterexample: chunk3 is generated by the full pipeline for
a river-bearing macro cell (world3's center) whose recorded entry-side set
is empty; the chunk consists of land tiles (beaches at height 0.05), yet
no tile is converted to RIVER, because no land tile exceeds height 0.3 -
so "some micro river is traced whenever such a chunk contains a land
tile" is false. -/
theorem C8_counterexample :
    ((world3 1 1).map (fun c' => c'.has_river && c'.river_entry_sides.isEmpty)
      = some true) ∧
    chunk3.any (fun q => q.2.is_land) = true ∧
    chunk3.any (fun q => decide (q.2.tile.biome = BiomeType.RIVER)) = false := by
  refine ⟨by norm_num [world3, cell3], ?_, ?_⟩
  · rw [chunk3_eq]
    norm_num [beachTileAt_def, is_land_BEACH]
  · rw [chunk3_eq]
    norm_num [beachTileAt_def]
    decide

/-- Claim C9: for every pair of world coordinates and positive chunk_size,
get_tile returns a tile (never absence): the floor modulo by chunk_size
lands in [0, chunk_size), which is a key of the owning (possibly newly
generated) chunk; macro coordinates outside the world grid (including
negative ones, as in the witness) are served through the synthesized
deep-ocean macro cell rather than failing. -/
theorem C9_get_tile_total (P : GenParams) (world : WorldGrid) (st : GenState)
    (wx wy : ℤ) (hcs : 0 < P.chunk_size) (hst : GoodState P st) :
    ((get_tile P world st wx wy).1).isSome = true ∧
    0 ≤ Int.fmod wx (P.chunk_size : ℤ) ∧
    Int.fmod wx (P.chunk_size : ℤ) < (P.chunk_size : ℤ) ∧
    0 ≤ Int.fmod wy (P.chunk_size : ℤ) ∧
    Int.fmod wy (P.chunk_size : ℤ) < (P.chunk_size : ℤ) := by
  have hcsz : (0 : ℤ) < (P.chunk_size : ℤ) := by exact_mod_cast hcs
  have hb1 : 0 ≤ Int.fmod wx (P.chunk_size : ℤ) := by
    rw [Int.fmod_eq_emod _ (le_of_lt hcsz)]
    exact Int.emod_nonneg wx (by omega)
  have hb2 : Int.fmod wx (P.chunk_size : ℤ) < (P.chunk_size : ℤ) :=
    Int.fmod_lt_of_pos wx hcsz
  have hb3 : 0 ≤ Int.fmod wy (P.chunk_size : ℤ) := by
    rw [Int.fmod_eq_emod _ (le_of_lt hcsz)]
    exact Int.emod_nonneg wy (by omega)
  have hb4 : Int.fmod wy (P.chunk_size : ℤ) < (P.chunk_size : ℤ) :=
    Int.fmod_lt_of_pos wy hcsz
  have hmem : (Int.fmod wx (P.chunk_size : ℤ), Int.fmod wy (P.chunk_size : ℤ))
      ∈ standardKeys P.chunk_size :=
    (mem_standardKeys P.chunk_size _ _).mpr ⟨hb1, hb2, hb3, hb4⟩
  refine ⟨?_, hb1, hb2, hb3, hb4⟩
  unfold get_tile
  dsimp only
  cases hl : lookupKey st
      (Int.fdiv wx (P.chunk_size : ℤ), Int.fdiv wy (P.chunk_size : ℤ), 0, 0) with
  | none =>
    rw [generate_chunk_of_uncached P world st _ 0 hl]
    dsimp only
    rw [lookupTM_isSome_iff, keysOf_computeChunkTiles]
    exact hmem
  | some t =>
    have hkeys := hst _ _ hl
    have htne : t.isEmpty = false := by
      cases t with
      | nil =>
        exfalso
        have h00 : ((0 : ℤ), (0 : ℤ)) ∈ standardKeys P.chunk_size :=
          (mem_standardKeys P.chunk_size 0 0).mpr ⟨le_refl 0, hcsz, le_refl 0, hcsz⟩
        rw [← hkeys] at h00
        exact absurd h00 (List.not_mem_nil _)
      | cons e es => rfl
    simp only [htne, Bool.false_eq_true, if_false]
    rw [lookupTM_isSome_iff, hkeys]
    exact hmem

/-- Claim C9 witness: the totality statement evaluated on a fresh
generator (empty cache), an empty world grid and the negative world
coordinate (-3, 5) with chunk_size 2. -/
theorem C9_get_tile_total_witness :
    0 < PexA.chunk_size ∧ GoodState PexA [] ∧
    (((get_tile PexA worldNone [] (-3) 5).1).isSome = true ∧
      0 ≤ Int.fmod (-3) (PexA.chunk_size : ℤ) ∧
      Int.fmod (-3) (PexA.chunk_size : ℤ) < (PexA.chunk_size : ℤ) ∧
      0 ≤ Int.fmod 5 (PexA.chunk_size : ℤ) ∧
      Int.fmod 5 (PexA.chunk_size : ℤ) < (PexA.chunk_size : ℤ)) :=
  ⟨by norm_num [PexA],
   fun _ _ h => by simp [lookupKey] at h,
   C9_get_tile_total PexA worldNone [] (-3) 5 (by norm_num [PexA])
     (fun _ _ h => by simp [lookupKey] at h)⟩

/-- Claim C10: is_water and is_land are never simultaneously true, but
they are not exhaustive: eroding the low beach tile of T10 (which has one
adjacent ocean tile) drives its height below 0 while its biome stays
BEACH, leaving a reachable tile that satisfies neither predicate. -/
theorem C10_water_land :
    (∀ ti : TileInfo, (ti.is_water && ti.is_land) = false) ∧
    ((lookupTM (applyErosion T10) (1, 0)).map
        (fun ti => !ti.is_water && !ti.is_land && decide (ti.tile.height < 0)
          && decide (ti.tile.biome ∉ waterBiomes)) = some true) := by
  constructor
  · intro ti
    unfold TileInfo.is_land
    cases h : ti.is_water <;> simp [h]
  · norm_num [T10, tiOcean, tiBeach, applyErosion, keysOf, erodeAt, countWaterNbrs,
      lookupTM, updateTM, is_water_OCEAN, is_water_BEACH, is_land_BEACH,
      TileInfo.is_water, TileInfo.is_land, waterBiomes, List.range_succ,
      -Prod.mk_zero_zero, -Prod.mk_one_one]
    decide
